import Mathlib

/-!
Verification of the Mergington High School activities API (`src_app.py`).

The registry of activities is an in-memory mapping from activity names to
records; the two operations the claims concern are `get_activity`
(GET /activities/{name}) and `signup_for_activity`
(POST /activities/{name}/signup).  Python strings are embedded as Lean
`String`, with `str.lower` and `str.endswith` embedded as structurally
recursive functions over the character list so they evaluate by `decide`.
-/

namespace Mergington

/-- Embedding of Python `str.lower` (ASCII case folding, as `Char.toLower`). -/
def strLower (s : String) : String :=
  ⟨s.data.map Char.toLower⟩

/-- Embedding of Python `str.endswith`: `t` is a suffix of `s`. -/
def strEndsWith (s t : String) : Bool :=
  s.data.drop (s.data.length - t.data.length) == t.data

/-- One activity record: `description`, `schedule`, `max_participants`,
`participants` (`src_app.py` lines 28-33 give the shape). -/
structure Activity where
  description : String
  schedule : String
  max_participants : Nat
  participants : List String
  deriving DecidableEq

/-- The error cases raised by the handlers, with their HTTP status codes. -/
inductive SignupError where
  | NotFound
  | InvalidInput
  | Conflict
  | Forbidden
  deriving DecidableEq

/-- HTTP status code of each error (`HTTP_404_NOT_FOUND` etc.). -/
def SignupError.statusCode : SignupError → Nat
  | SignupError.NotFound => 404
  | SignupError.InvalidInput => 400
  | SignupError.Conflict => 409
  | SignupError.Forbidden => 403

/-- The in-memory activity database: an association list keyed by name. -/
abbrev Registry := List (String × Activity)

/-- Embedding of `activities.get(name)`: first record under that key. -/
def Registry.get (reg : Registry) (name : String) : Option Activity :=
  match reg with
  | [] => none
  | (k, a) :: rest => if k = name then some a else Registry.get rest name

/-- In-place mutation of the record under `name`, embedded functionally:
each entry keyed `name` is replaced by `a`, all other entries are kept. -/
def Registry.set (reg : Registry) (name : String) (a : Activity) : Registry :=
  match reg with
  | [] => []
  | (k, b) :: rest => (if k = name then (k, a) else (k, b)) :: Registry.set rest name a

/-- `validate_student` (lines 113-115): case-insensitive institutional
domain check `email.lower().endswith("@mergington.edu")`. -/
def validate_student (email : String) : Bool :=
  strEndsWith (strLower email) "@mergington.edu"

/-- `check_already_signed_up` (lines 118-123). -/
def check_already_signed_up (reg : Registry) (activity_name email : String) : Bool :=
  match Registry.get reg activity_name with
  | none => false
  | some activity => email ∈ activity.participants

/-- `get_activity` (lines 104-110): single record or 404. -/
def get_activity (reg : Registry) (activity_name : String) : Except SignupError Activity :=
  match Registry.get reg activity_name with
  | none => Except.error SignupError.NotFound
  | some activity => Except.ok activity

/-- `signup_for_activity` (lines 126-155).  The request email is lower-cased
first; then the checks run in source order: domain validation (400),
activity existence (404), duplicate (409), capacity (403); otherwise the
lower-cased email is appended.  On success the new registry is returned. -/
def signup_for_activity (reg : Registry) (activity_name rawEmail : String) :
    Except SignupError Registry :=
  if validate_student (strLower rawEmail) then
    match Registry.get reg activity_name with
    | none => Except.error SignupError.NotFound
    | some activity =>
      if strLower rawEmail ∈ activity.participants then
        Except.error SignupError.Conflict
      else if activity.max_participants ≤ activity.participants.length then
        Except.error SignupError.Forbidden
      else
        Except.ok (Registry.set reg activity_name
          { activity with participants := activity.participants ++ [strLower rawEmail] })
  else
    Except.error SignupError.InvalidInput

/-- HTTP status of a signup response: 201 on success, else the error code. -/
def responseStatus (r : Except SignupError Registry) : Nat :=
  match r with
  | Except.ok _ => 201
  | Except.error e => SignupError.statusCode e

/-- The registry after a signup attempt: the Python handler mutates the
shared store only on success, so on error the registry is unchanged. -/
def signupResult (reg : Registry) (activity_name rawEmail : String) : Registry :=
  match signup_for_activity reg activity_name rawEmail with
  | Except.ok newReg => newReg
  | Except.error _ => reg

instance : DecidableEq (Except SignupError Registry) := fun a b =>
  match a, b with
  | Except.ok x, Except.ok y =>
      if h : x = y then isTrue (by rw [h]) else isFalse (by simp [h])
  | Except.error x, Except.error y =>
      if h : x = y then isTrue (by rw [h]) else isFalse (by simp [h])
  | Except.ok _, Except.error _ => isFalse (by simp)
  | Except.error _, Except.ok _ => isFalse (by simp)

/-- The seed database (`src_app.py` lines 27-82). -/
def activities : Registry :=
  [ ("Chess Club",
      { description := "Learn strategies and compete in chess tournaments"
        schedule := "Fridays, 3:30 PM - 5:00 PM"
        max_participants := 12
        participants := ["michael@mergington.edu", "daniel@mergington.edu"] }),
    ("Programming Class",
      { description := "Learn programming fundamentals and build software projects"
        schedule := "Tuesdays and Thursdays, 3:30 PM - 4:30 PM"
        max_participants := 20
        participants := ["emma@mergington.edu", "sophia@mergington.edu"] }),
    ("Gym Class",
      { description := "Physical education and sports activities"
        schedule := "Mondays, Wednesdays, Fridays, 2:00 PM - 3:00 PM"
        max_participants := 30
        participants := ["john@mergington.edu", "olivia@mergington.edu"] }),
    ("Basketball Team",
      { description := "Join the competitive basketball team and compete in regional tournaments"
        schedule := "Mondays and Thursdays, 4:00 PM - 5:30 PM"
        max_participants := 15
        participants := ["james@mergington.edu"] }),
    ("Tennis Club",
      { description := "Learn tennis skills and participate in friendly matches"
        schedule := "Wednesdays and Saturdays, 3:00 PM - 4:30 PM"
        max_participants := 12
        participants := ["lucas@mergington.edu", "sophia@mergington.edu"] }),
    ("Drama Club",
      { description := "Perform in school plays and theatrical productions"
        schedule := "Tuesdays and Fridays, 4:00 PM - 5:30 PM"
        max_participants := 25
        participants := ["isabella@mergington.edu", "alexander@mergington.edu"] }),
    ("Art Studio",
      { description := "Explore various art techniques including painting, drawing, and sculpture"
        schedule := "Mondays and Wednesdays, 3:30 PM - 5:00 PM"
        max_participants := 18
        participants := ["ava@mergington.edu"] }),
    ("Robotics Club",
      { description := "Build and program robots to compete in robotics competitions"
        schedule := "Thursdays and Saturdays, 3:00 PM - 5:00 PM"
        max_participants := 16
        participants := ["noah@mergington.edu", "liam@mergington.edu"] }),
    ("Science Club",
      { description := "Conduct experiments and explore scientific concepts through hands-on activities"
        schedule := "Wednesdays, 3:30 PM - 5:00 PM"
        max_participants := 20
        participants := ["charlotte@mergington.edu"] }) ]

/-- The per-record invariant: participants within capacity and no
duplicate emails within the record. -/
def Activity.inv (a : Activity) : Prop :=
  a.participants.length ≤ a.max_participants ∧ a.participants.Nodup

instance (a : Activity) : Decidable a.inv :=
  inferInstanceAs (Decidable (_ ∧ _))

/-- The registry invariant: every record satisfies `Activity.inv`. -/
def Registry.inv (reg : Registry) : Prop :=
  ∀ p ∈ reg, Activity.inv p.2

instance (reg : Registry) : Decidable reg.inv :=
  inferInstanceAs (Decidable (∀ p ∈ reg, Activity.inv p.2))

/-! ### Helper lemmas -/

theorem Char.toNat_ofNat_of_valid {n : Nat} (h : n.isValidChar) :
    (Char.ofNat n).toNat = n := by
  simp [Char.ofNat, dif_pos h, Char.ofNatAux, Char.toNat, UInt32.toNat]

theorem Char.toLower_toLower (c : Char) : c.toLower.toLower = c.toLower := by
  unfold Char.toLower
  by_cases h : 65 ≤ c.toNat ∧ c.toNat ≤ 90
  · rw [if_pos h]
    have hv : (c.toNat + 32).isValidChar := Or.inl (by omega)
    have ht : (Char.ofNat (c.toNat + 32)).toNat = c.toNat + 32 :=
      Char.toNat_ofNat_of_valid hv
    rw [ht, if_neg (by omega)]
  · rw [if_neg h, if_neg h]

theorem strLower_strLower (s : String) : strLower (strLower s) = strLower s := by
  unfold strLower
  refine congrArg String.mk ?_
  show (s.data.map Char.toLower).map Char.toLower = s.data.map Char.toLower
  rw [List.map_map]
  exact List.map_congr_left fun c _ => Char.toLower_toLower c

/-- The handler lower-cases the email before calling `validate_student`;
since `validate_student` itself case-folds, that pre-lowering is harmless. -/
theorem validate_student_strLower (email : String) :
    validate_student (strLower email) = validate_student email := by
  unfold validate_student
  rw [strLower_strLower]

theorem Registry.get_mem {reg : Registry} {name : String} {act : Activity}
    (h : Registry.get reg name = some act) : (name, act) ∈ reg := by
  induction reg with
  | nil => simp [Registry.get] at h
  | cons p rest ih =>
      obtain ⟨k, b⟩ := p
      unfold Registry.get at h
      by_cases hk : k = name
      · rw [if_pos hk] at h
        injection h with h
        subst hk; subst h
        exact List.mem_cons_self _ _
      · rw [if_neg hk] at h
        exact List.mem_cons_of_mem _ (ih h)

theorem Registry.get_set_self {reg : Registry} {name : String} {act : Activity}
    (a : Activity) (h : Registry.get reg name = some act) :
    Registry.get (Registry.set reg name a) name = some a := by
  induction reg with
  | nil => simp [Registry.get] at h
  | cons p rest ih =>
      obtain ⟨k, b⟩ := p
      unfold Registry.get at h
      by_cases hk : k = name
      · unfold Registry.set Registry.get
        rw [if_pos hk, if_pos hk]
      · rw [if_neg hk] at h
        unfold Registry.set Registry.get
        rw [if_neg hk, if_neg hk]
        exact ih h

theorem Registry.get_set_ne {other name : String} (reg : Registry) (a : Activity)
    (hne : other ≠ name) :
    Registry.get (Registry.set reg name a) other = Registry.get reg other := by
  induction reg with
  | nil => rfl
  | cons p rest ih =>
      obtain ⟨k, b⟩ := p
      by_cases hk : k = name
      · unfold Registry.set Registry.get
        rw [if_pos hk, if_neg (by rw [hk]; exact fun h => hne h.symm),
          if_neg (by rw [hk]; exact fun h => hne h.symm)]
        exact ih
      · unfold Registry.set Registry.get
        rw [if_neg hk]
        by_cases hko : k = other
        · rw [if_pos hko, if_pos hko]
        · rw [if_neg hko, if_neg hko]
          exact ih

theorem Registry.mem_set {reg : Registry} {name : String} {a : Activity}
    {p : String × Activity} (hp : p ∈ Registry.set reg name a) :
    p.2 = a ∨ p ∈ reg := by
  induction reg with
  | nil => exact absurd hp (List.not_mem_nil p)
  | cons q rest ih =>
      obtain ⟨k, b⟩ := q
      unfold Registry.set at hp
      rcases List.mem_cons.mp hp with h | h
      · by_cases hk : k = name
        · rw [if_pos hk] at h
          exact Or.inl (by rw [h])
        · rw [if_neg hk] at h
          exact Or.inr (h ▸ List.mem_cons_self _ _)
      · rcases ih h with h2 | h2
        · exact Or.inl h2
        · exact Or.inr (List.mem_cons_of_mem _ h2)

/-- Inversion for a successful signup: the activity existed, the email was
valid, not a duplicate, capacity was available, and the result is the
registry with the lower-cased email appended to that record. -/
theorem signup_ok_elim {reg : Registry} {name rawEmail : String} {newReg : Registry}
    (h : signup_for_activity reg name rawEmail = Except.ok newReg) :
    validate_student rawEmail = true ∧
    ∃ act, Registry.get reg name = some act ∧
      strLower rawEmail ∉ act.participants ∧
      act.participants.length < act.max_participants ∧
      newReg = Registry.set reg name
        { act with participants := act.participants ++ [strLower rawEmail] } := by
  unfold signup_for_activity at h
  split at h
  · next hv =>
    split at h
    · exact absurd h (by simp)
    · next act hget =>
      split at h
      · exact absurd h (by simp)
      · next hdup =>
        split at h
        · exact absurd h (by simp)
        · next hcap =>
          injection h with h
          refine ⟨by rw [← validate_student_strLower]; exact hv,
            act, hget, hdup, by omega, h.symm⟩
  · exact absurd h (by simp)

/-- A successful signup, characterized forwards. -/
theorem signup_ok_of {reg : Registry} {name rawEmail : String} {act : Activity}
    (hv : validate_student rawEmail = true)
    (hget : Registry.get reg name = some act)
    (hdup : strLower rawEmail ∉ act.participants)
    (hcap : act.participants.length < act.max_participants) :
    signup_for_activity reg name rawEmail =
      Except.ok (Registry.set reg name
        { act with participants := act.participants ++ [strLower rawEmail] }) := by
  unfold signup_for_activity
  rw [if_pos (by rw [validate_student_strLower]; exact hv)]
  simp only [hget]
  rw [if_neg hdup, if_neg (by omega)]

/-! ### Claims -/

/-- C1 counterexample: the code checks the email domain before the
activity lookup, so a request naming an absent activity with a
non-institutional email fails with InvalidInput, not NotFound. -/
theorem C1_counterexample :
    Registry.get activities "Missing Club" = none ∧
    signup_for_activity activities "Missing Club" "student@gmail.com" =
      Except.error SignupError.InvalidInput ∧
    signup_for_activity activities "Missing Club" "student@gmail.com" ≠
      Except.error SignupError.NotFound := by
  decide

/-- C1 (amended): the validation order is InvalidInput first, then
NotFound, then Conflict, then Forbidden: a request with a
non-institutional email fails with InvalidInput regardless of the
activity, and a request naming an absent activity fails with NotFound
(404) provided its email passes the institutional-domain check. -/
theorem C1_validation_order (reg : Registry) (name email : String) :
    (validate_student email = false →
      signup_for_activity reg name email = Except.error SignupError.InvalidInput) ∧
    (validate_student email = true → Registry.get reg name = none →
      signup_for_activity reg name email = Except.error SignupError.NotFound ∧
      responseStatus (signup_for_activity reg name email) = 404) := by
  constructor
  · intro hv
    unfold signup_for_activity
    rw [if_neg (by rw [validate_student_strLower, hv]; simp)]
  · intro hv habs
    have herr : signup_for_activity reg name email = Except.error SignupError.NotFound := by
      unfold signup_for_activity
      rw [if_pos (by rw [validate_student_strLower]; exact hv)]
      simp only [habs]
    exact ⟨herr, by simp [responseStatus, herr, SignupError.statusCode]⟩

/-- Witness for C1_validation_order at concrete inputs. -/
theorem C1_validation_order_witness :
    signup_for_activity activities "Missing Club" "student@gmail.com" =
      Except.error SignupError.InvalidInput ∧
    signup_for_activity activities "Missing Club" "student@mergington.edu" =
      Except.error SignupError.NotFound :=
  ⟨(C1_validation_order activities "Missing Club" "student@gmail.com").1 (by decide),
   ((C1_validation_order activities "Missing Club" "student@mergington.edu").2
      (by decide) (by decide)).1⟩

/-- C2: for every registry, existing activity, institutional email whose
lower-cased form is not yet a participant, and free capacity, signup
succeeds (201) and appends the lower-cased email exactly once at the end
of that record, increasing its length by exactly one. -/
theorem C2_signup_success (reg : Registry) (name email : String) (act : Activity)
    (hget : Registry.get reg name = some act)
    (hv : validate_student email = true)
    (hdup : strLower email ∉ act.participants)
    (hcap : act.participants.length < act.max_participants) :
    signup_for_activity reg name email =
      Except.ok (Registry.set reg name
        { act with participants := act.participants ++ [strLower email] }) ∧
    responseStatus (signup_for_activity reg name email) = 201 ∧
    Registry.get (signupResult reg name email) name =
      some { act with participants := act.participants ++ [strLower email] } ∧
    (act.participants ++ [strLower email]).length = act.participants.length + 1 ∧
    (act.participants ++ [strLower email]).count (strLower email) = 1 := by
  have hok := signup_ok_of hv hget hdup hcap
  refine ⟨hok, ?_, ?_, by simp, ?_⟩
  · unfold responseStatus
    rw [hok]
  · have hres : signupResult reg name email =
        Registry.set reg name
          { act with participants := act.participants ++ [strLower email] } := by
      unfold signupResult
      rw [hok]
    rw [hres]
    exact Registry.get_set_self _ hget
  · rw [List.count_append]
    rw [List.count_eq_zero.mpr hdup]
    simp

/-- Witness for C2_signup_success on the seed Chess Club. -/
theorem C2_signup_success_witness :
    responseStatus (signup_for_activity activities "Chess Club" "new@mergington.edu") = 201 :=
  (C2_signup_success activities "Chess Club" "new@mergington.edu"
    { description := "Learn strategies and compete in chess tournaments"
      schedule := "Fridays, 3:30 PM - 5:00 PM"
      max_participants := 12
      participants := ["michael@mergington.edu", "daniel@mergington.edu"] }
    (by decide) (by decide) (by decide) (by decide)).2.1

/-- C3: the registry invariant (length within capacity, no duplicate
emails per record) holds for the seed data and is preserved by every
signup attempt, successful or failing. -/
theorem C3_registry_invariant :
    Registry.inv activities ∧
    ∀ (reg : Registry) (name email : String),
      Registry.inv reg → Registry.inv (signupResult reg name email) := by
  refine ⟨by decide, ?_⟩
  intro reg name email hinv
  cases hs : signup_for_activity reg name email with
  | error e =>
      have hres : signupResult reg name email = reg := by
        unfold signupResult
        rw [hs]
      rw [hres]
      exact hinv
  | ok newReg =>
      have hres : signupResult reg name email = newReg := by
        unfold signupResult
        rw [hs]
      rw [hres]
      obtain ⟨hv, act, hget, hdup, hcap, hnew⟩ := signup_ok_elim hs
      subst hnew
      intro p hp
      rcases Registry.mem_set hp with h2 | h2
      · have hainv : Activity.inv act := hinv _ (Registry.get_mem hget)
        rw [h2]
        refine ⟨?_, ?_⟩
        · simp only [List.length_append, List.length_singleton]
          omega
        · exact hainv.2.append (List.nodup_singleton _)
            (List.disjoint_singleton.mpr hdup)
      · exact hinv _ h2

/-- Witness for C3_registry_invariant after a concrete signup. -/
theorem C3_registry_invariant_witness :
    Registry.inv (signupResult activities "Chess Club" "new@mergington.edu") :=
  C3_registry_invariant.2 activities "Chess Club" "new@mergington.edu" (by decide)

/-- C4: a duplicate signup fails with Conflict (409) and leaves the
registry unchanged; more generally every failing signup leaves the
registry unchanged. -/
theorem C4_conflict_unchanged (reg : Registry) (name email : String) (act : Activity)
    (hv : validate_student email = true)
    (hget : Registry.get reg name = some act)
    (hdup : strLower email ∈ act.participants) :
    signup_for_activity reg name email = Except.error SignupError.Conflict ∧
    responseStatus (signup_for_activity reg name email) = 409 ∧
    signupResult reg name email = reg ∧
    ∀ (reg2 : Registry) (n e : String) (err : SignupError),
      signup_for_activity reg2 n e = Except.error err → signupResult reg2 n e = reg2 := by
  have herr : signup_for_activity reg name email = Except.error SignupError.Conflict := by
    unfold signup_for_activity
    rw [if_pos (by rw [validate_student_strLower]; exact hv)]
    simp only [hget]
    rw [if_pos hdup]
  refine ⟨herr, ?_, ?_, ?_⟩
  · unfold responseStatus
    rw [herr]
    rfl
  · unfold signupResult
    rw [herr]
  · intro reg2 n e err he
    unfold signupResult
    rw [he]

/-- Witness for C4_conflict_unchanged: re-signing a seeded participant. -/
theorem C4_conflict_unchanged_witness :
    signup_for_activity activities "Chess Club" "michael@mergington.edu" =
      Except.error SignupError.Conflict :=
  (C4_conflict_unchanged activities "Chess Club" "michael@mergington.edu"
    { description := "Learn strategies and compete in chess tournaments"
      schedule := "Fridays, 3:30 PM - 5:00 PM"
      max_participants := 12
      participants := ["michael@mergington.edu", "daniel@mergington.edu"] }
    (by decide) (by decide) (by decide)).1

/-- C5: an institutional, non-duplicate signup to an existing activity
whose participants list is exactly at capacity fails with Forbidden (403). -/
theorem C5_capacity_forbidden (reg : Registry) (name email : String) (act : Activity)
    (hv : validate_student email = true)
    (hget : Registry.get reg name = some act)
    (hdup : strLower email ∉ act.participants)
    (hfull : act.participants.length = act.max_participants) :
    signup_for_activity reg name email = Except.error SignupError.Forbidden ∧
    responseStatus (signup_for_activity reg name email) = 403 := by
  have herr : signup_for_activity reg name email = Except.error SignupError.Forbidden := by
    unfold signup_for_activity
    rw [if_pos (by rw [validate_student_strLower]; exact hv)]
    simp only [hget]
    rw [if_neg hdup, if_pos (by omega)]
  exact ⟨herr, by simp [responseStatus, herr, SignupError.statusCode]⟩

/-- Witness for C5_capacity_forbidden on a one-slot activity. -/
theorem C5_capacity_forbidden_witness :
    signup_for_activity
      [("Tiny Club",
        { description := "d", schedule := "s", max_participants := 1,
          participants := ["a@mergington.edu"] })]
      "Tiny Club" "b@mergington.edu" = Except.error SignupError.Forbidden :=
  (C5_capacity_forbidden
    [("Tiny Club",
      { description := "d", schedule := "s", max_participants := 1,
        participants := ["a@mergington.edu"] })]
    "Tiny Club" "b@mergington.edu"
    { description := "d", schedule := "s", max_participants := 1,
      participants := ["a@mergington.edu"] }
    (by decide) (by decide) (by decide) (by decide)).1

/-- C6: a signup naming an existing activity with a non-institutional
email (case-insensitive suffix check fails) is rejected with
InvalidInput (400), whatever the capacity or the participants. -/
theorem C6_invalid_email (reg : Registry) (name email : String) (act : Activity)
    (_hget : Registry.get reg name = some act)
    (hv : validate_student email = false) :
    signup_for_activity reg name email = Except.error SignupError.InvalidInput ∧
    responseStatus (signup_for_activity reg name email) = 400 := by
  have herr : signup_for_activity reg name email = Except.error SignupError.InvalidInput := by
    unfold signup_for_activity
    rw [if_neg (by rw [validate_student_strLower, hv]; simp)]
  exact ⟨herr, by simp [responseStatus, herr, SignupError.statusCode]⟩

/-- Witness for C6_invalid_email on the seed Chess Club. -/
theorem C6_invalid_email_witness :
    signup_for_activity activities "Chess Club" "student@gmail.com" =
      Except.error SignupError.InvalidInput :=
  (C6_invalid_email activities "Chess Club" "student@gmail.com"
    { description := "Learn strategies and compete in chess tournaments"
      schedule := "Fridays, 3:30 PM - 5:00 PM"
      max_participants := 12
      participants := ["michael@mergington.edu", "daniel@mergington.edu"] }
    (by decide) (by decide)).1

/-- C7: a signup for a given name touches at most that one record: every
other name resolves to the same record afterwards, and the named record
keeps its description, schedule and max_participants, its participants
list either unchanged or extended by the one lower-cased email. -/
theorem C7_frame (reg : Registry) (name email : String) :
    (∀ other, other ≠ name →
      Registry.get (signupResult reg name email) other = Registry.get reg other) ∧
    (∀ act actNew, Registry.get reg name = some act →
      Registry.get (signupResult reg name email) name = some actNew →
      actNew.description = act.description ∧
      actNew.schedule = act.schedule ∧
      actNew.max_participants = act.max_participants ∧
      (actNew.participants = act.participants ∨
        actNew.participants = act.participants ++ [strLower email])) := by
  cases hs : signup_for_activity reg name email with
  | error e =>
      have hres : signupResult reg name email = reg := by
        unfold signupResult
        rw [hs]
      rw [hres]
      refine ⟨fun other _ => rfl, fun act actNew hget hget2 => ?_⟩
      rw [hget] at hget2
      injection hget2 with h
      subst h
      exact ⟨rfl, rfl, rfl, Or.inl rfl⟩
  | ok newReg =>
      obtain ⟨hv, act0, hget0, hdup0, hcap0, hnew⟩ := signup_ok_elim hs
      have hres : signupResult reg name email = newReg := by
        unfold signupResult
        rw [hs]
      rw [hres, hnew]
      constructor
      · intro other hne
        exact Registry.get_set_ne reg _ hne
      · intro act actNew hget hget2
        rw [hget0] at hget
        injection hget with hact
        rw [Registry.get_set_self _ hget0] at hget2
        injection hget2 with hact2
        subst hact
        subst hact2
        exact ⟨rfl, rfl, rfl, Or.inr rfl⟩

/-- Witness for C7_frame: a Chess Club signup leaves Gym Class intact. -/
theorem C7_frame_witness :
    Registry.get (signupResult activities "Chess Club" "new@mergington.edu") "Gym Class" =
      Registry.get activities "Gym Class" :=
  (C7_frame activities "Chess Club" "new@mergington.edu").1 "Gym Class" (by decide)

/-- C8: GET of a single activity returns the record when the name is
present and NotFound (404) when it is absent; the registry is not an
output of the operation, which reads it only. -/
theorem C8_get_activity (reg : Registry) (name : String) :
    (∀ act, Registry.get reg name = some act →
      get_activity reg name = Except.ok act) ∧
    (Registry.get reg name = none →
      get_activity reg name = Except.error SignupError.NotFound ∧
      SignupError.statusCode SignupError.NotFound = 404) := by
  constructor
  · intro act h
    simp [get_activity, h]
  · intro h
    exact ⟨by simp [get_activity, h], rfl⟩

/-- Witness for C8_get_activity at a present and an absent name. -/
theorem C8_get_activity_witness :
    get_activity activities "Chess Club" =
      Except.ok
        { description := "Learn strategies and compete in chess tournaments"
          schedule := "Fridays, 3:30 PM - 5:00 PM"
          max_participants := 12
          participants := ["michael@mergington.edu", "daniel@mergington.edu"] } ∧
    get_activity activities "Missing Club" = Except.error SignupError.NotFound :=
  ⟨(C8_get_activity activities "Chess Club").1
    { description := "Learn strategies and compete in chess tournaments"
      schedule := "Fridays, 3:30 PM - 5:00 PM"
      max_participants := 12
      participants := ["michael@mergington.edu", "daniel@mergington.edu"] }
    (by decide),
   ((C8_get_activity activities "Missing Club").2 (by decide)).1⟩

/-- C9: on the seed data, Chess Club starts with 2 of 12 slots used, and
signing up new@mergington.edu succeeds with a 3-element participants
list containing that email. -/
theorem C9_chess_example :
    (Registry.get activities "Chess Club").map Activity.participants =
      some ["michael@mergington.edu", "daniel@mergington.edu"] ∧
    (Registry.get activities "Chess Club").map Activity.max_participants = some 12 ∧
    ["michael@mergington.edu", "daniel@mergington.edu"].length = 2 ∧
    responseStatus (signup_for_activity activities "Chess Club" "new@mergington.edu") = 201 ∧
    (Registry.get (signupResult activities "Chess Club" "new@mergington.edu")
        "Chess Club").map Activity.participants =
      some ["michael@mergington.edu", "daniel@mergington.edu", "new@mergington.edu"] ∧
    ["michael@mergington.edu", "daniel@mergington.edu", "new@mergington.edu"].length = 3 ∧
    "new@mergington.edu" ∈
      ["michael@mergington.edu", "daniel@mergington.edu", "new@mergington.edu"] := by
  decide

/-- C10: the duplicate check is case-insensitive: the request email is
lower-cased first, so when the lower-cased form is already a participant
the signup fails with Conflict (409) and nothing is appended, even when
the raw request email differs in case from every stored entry. -/
theorem C10_case_insensitive_duplicate (reg : Registry) (name email : String) (act : Activity)
    (hget : Registry.get reg name = some act)
    (hv : validate_student email = true)
    (hdup : strLower email ∈ act.participants)
    (_hraw : email ∉ act.participants) :
    signup_for_activity reg name email = Except.error SignupError.Conflict ∧
    responseStatus (signup_for_activity reg name email) = 409 ∧
    (Registry.get (signupResult reg name email) name).map Activity.participants =
      some act.participants := by
  have herr : signup_for_activity reg name email = Except.error SignupError.Conflict := by
    unfold signup_for_activity
    rw [if_pos (by rw [validate_student_strLower]; exact hv)]
    simp only [hget]
    rw [if_pos hdup]
  refine ⟨herr, ?_, ?_⟩
  · unfold responseStatus
    rw [herr]
    rfl
  · have hres : signupResult reg name email = reg := by
      unfold signupResult
      rw [herr]
    rw [hres, hget]
    rfl

/-- Witness for C10_case_insensitive_duplicate: a case-variant of a
seeded Chess Club participant is rejected as a duplicate. -/
theorem C10_case_insensitive_duplicate_witness :
    signup_for_activity activities "Chess Club" "Michael@MERGINGTON.EDU" =
      Except.error SignupError.Conflict :=
  (C10_case_insensitive_duplicate activities "Chess Club" "Michael@MERGINGTON.EDU"
    { description := "Learn strategies and compete in chess tournaments"
      schedule := "Fridays, 3:30 PM - 5:00 PM"
      max_participants := 12
      participants := ["michael@mergington.edu", "daniel@mergington.edu"] }
    (by decide) (by decide) (by decide) (by decide)).1

end Mergington
